import Mathlib

/-!
Shallow embedding of the resilient proxy-fetch core of `wggesuchtstats`
(`src/wggesuchtstats/util.py`) and proofs of its specified properties.

Modelling conventions:
* Python `dict` / `collections.defaultdict(int)` is an association list
  `List (String × Nat)` with unique keys kept in insertion order.  A
  `defaultdict` read (`d[k]`) of a missing key *inserts* the key with value 0
  at the end, exactly as in Python (`dget` below).
* The process-global mutable state (`proxy_list`, `proxy_failure_counts`) is
  an explicit `ProxyState` threaded through every operation.  The state also
  carries ghost event counters (`http_attempts`, `success_events`,
  `failure_events`) that count, respectively, HTTP attempts issued and
  success/failure recordings; they are instrumentation only and influence no
  control flow.
* The network is an oracle `Nat → String → AttemptOutcome` giving the outcome
  of the n-th HTTP attempt through a given proxy; `random.shuffle` is an
  oracle `Nat → List String → List String` indexed by the attempt counter at
  shuffle time (0 for the initial shuffle).
* The `while attempt < max_attempts` loop runs its body at most
  `max_attempts` times, each iteration incrementing `attempt` by one (or
  raising); it is rendered as structural recursion on the remaining fuel
  `max_attempts - attempt`, initialised to `max_attempts.toNat`.
-/

/-- First-match lookup in an association list, i.e. Python `d[k]` when the key
is present / `k in d`. -/
def dictLookup (d : List (String × Nat)) (k : String) : Option Nat :=
  match d with
  | [] => none
  | (k', v) :: rest => if k' = k then some v else dictLookup rest k

/-- Read of a `defaultdict(int)`: returns the stored value, or inserts the
default 0 (at the end, in insertion order) and returns 0 when the key is
missing.  Returns the value together with the possibly grown dictionary. -/
def dget (d : List (String × Nat)) (k : String) : Nat × List (String × Nat) :=
  match dictLookup d k with
  | some v => (v, d)
  | none => (0, d ++ [(k, 0)])

/-- Python `d[k] = v`: overwrite in place when present, append when absent. -/
def dset (d : List (String × Nat)) (k : String) (v : Nat) : List (String × Nat) :=
  match d with
  | [] => [(k, v)]
  | (k', v') :: rest => if k' = k then (k', v) :: rest else (k', v') :: dset rest k v

/-- Python `d.pop(k, None)`: drop the (first, hence with unique keys the only)
entry for `k`. -/
def dpop (d : List (String × Nat)) (k : String) : List (String × Nat) :=
  match d with
  | [] => []
  | (k', v') :: rest => if k' = k then rest else (k', v') :: dpop rest k

/-- The failure count of an address as observed through the defaultdict:
stored value, defaulting to 0. -/
def countD (d : List (String × Nat)) (k : String) : Nat :=
  (dictLookup d k).getD 0

/-- Well-formedness of the dictionary model: keys are pairwise distinct, as
they are in every Python dict. -/
def dictWF (d : List (String × Nat)) : Prop :=
  (d.map Prod.fst).Nodup

/-- The shared mutable pool state of `util.py` (`proxy_list`,
`proxy_failure_counts`) plus ghost event counters used only in statements of
theorems: `http_attempts` counts HTTP attempts issued by the fetch loop,
`success_events` / `failure_events` count recorded proxy successes/failures. -/
structure ProxyState where
  proxy_list : List String
  proxy_failure_counts : List (String × Nat)
  http_attempts : Nat
  success_events : Nat
  failure_events : Nat
deriving DecidableEq, Repr

/-- The empty pool state at process start. -/
def initialState : ProxyState :=
  { proxy_list := []
    proxy_failure_counts := []
    http_attempts := 0
    success_events := 0
    failure_events := 0 }

/-- Tunable `PROXY_REMOVE_AFTER = 2`. -/
def PROXY_REMOVE_AFTER : Nat := 2

/-- Tunable `SOFT_EXCLUDE_AFTER = 1`. -/
def SOFT_EXCLUDE_AFTER : Nat := 1

/-- Tunable `MAX_ATTEMPTS = 200`. -/
def MAX_ATTEMPTS : Int := 200

/-- `_get_proxies`: reads the proxy file and keeps the stripped form of every
line that is non-empty after stripping and contains a colon; an unreadable
file (`none`) yields `[]`.  `pyStrip` models Python `str.strip()`. -/
def pyStrip (s : String) : String :=
  String.mk (((s.data.dropWhile Char.isWhitespace).reverse.dropWhile Char.isWhitespace).reverse)

/-- Python `":" in ln`: the line contains a colon character. -/
def containsColon (s : String) : Bool :=
  s.data.contains ':'

/-- Loader `_get_proxies(path)`: the file contents are given as the list of
its lines (`f.read().splitlines()`), or `none` when any exception occurs
while opening/reading. -/
def _get_proxies (file : Option (List String)) : List String :=
  match file with
  | none => []
  | some lines => (lines.filter (fun ln => (pyStrip ln != "") && containsColon ln)).map pyStrip

/-- `_remove_failed_proxy_locked(p)`: `if p in proxy_list: proxy_list.remove(p)`
(Python `remove` deletes the first occurrence only) and
`proxy_failure_counts.pop(p, None)`. -/
def _remove_failed_proxy_locked (s : ProxyState) (p : String) : ProxyState :=
  { s with
    proxy_list := s.proxy_list.erase p
    proxy_failure_counts := dpop s.proxy_failure_counts p }

/-- `_handle_proxy_failure(p)`: no-op on a falsy argument (`None` or `""`);
otherwise increment the failure count (a defaultdict read followed by a
write) and, when the new count reaches `PROXY_REMOVE_AFTER`, remove the proxy
from both the list and the map.  Ghost: bumps `failure_events`. -/
def _handle_proxy_failure (s : ProxyState) (p : Option String) : ProxyState :=
  match p with
  | none => s
  | some p =>
    if p = "" then s
    else
      let vd := dget s.proxy_failure_counts p
      let c := vd.1 + 1
      let s' := { s with
        proxy_failure_counts := dset vd.2 p c
        failure_events := s.failure_events + 1 }
      if c ≥ PROXY_REMOVE_AFTER then _remove_failed_proxy_locked s' p else s'

/-- `_handle_proxy_success(p)`: no-op on a falsy argument; otherwise reset the
failure count to 0.  Ghost: bumps `success_events`. -/
def _handle_proxy_success (s : ProxyState) (p : Option String) : ProxyState :=
  match p with
  | none => s
  | some p =>
    if p = "" then s
    else
      { s with
        proxy_failure_counts := dset s.proxy_failure_counts p 0
        success_events := s.success_events + 1 }

/-- `_ensure_global_proxies()`: return immediately when the pool is non-empty;
otherwise load the file and install the result only if the pool is still
empty and the loaded list is non-empty (double-checked lazy seeding). -/
def _ensure_global_proxies (file : Option (List String)) (s : ProxyState) : ProxyState :=
  if s.proxy_list ≠ [] then s
  else
    let new_list := _get_proxies file
    if s.proxy_list = [] ∧ new_list ≠ [] then { s with proxy_list := new_list } else s

/-- The list comprehension of `_snapshot_local`: walk `proxy_list`, reading
each failure count through the defaultdict (which materialises missing keys
with 0) and keeping the addresses whose count is below
`SOFT_EXCLUDE_AFTER`. -/
def snapGo : List String → List (String × Nat) → List String × List (String × Nat)
  | [], d => ([], d)
  | p :: ps, d =>
    let vd := dget d p
    let rec' := snapGo ps vd.2
    (if vd.1 < SOFT_EXCLUDE_AFTER then p :: rec'.1 else rec'.1, rec'.2)

/-- `_snapshot_local()`: the soft-exclude filtered list, falling back to a
copy of the full `proxy_list` when the filtered list is empty
(`local or proxy_list[:]`). -/
def _snapshot_local (s : ProxyState) : List String × ProxyState :=
  let ld := snapGo s.proxy_list s.proxy_failure_counts
  (if ld.1 = [] then s.proxy_list else ld.1, { s with proxy_failure_counts := ld.2 })

/-- `_is_retryable_status(code)`: membership in the retryable status set. -/
def _is_retryable_status (code : Int) : Bool :=
  code = 301 ∨ code = 302 ∨ code = 401 ∨ code = 403 ∨ code = 407 ∨
    code = 429 ∨ code = 500 ∨ code = 502 ∨ code = 503 ∨ code = 504

/-- The dictionary returned by `get_proxy_stats()`. -/
structure ProxyStats where
  total_proxies : Nat
  healthy_proxies : Nat
  failure_counts : List (String × Nat)
deriving DecidableEq, Repr

/-- The generator `sum(1 for p in proxy_list if proxy_failure_counts[p] <
PROXY_REMOVE_AFTER)`: walks `proxy_list` left to right, reading counts
through the defaultdict (materialising missing keys). -/
def statsGo : List String → List (String × Nat) → Nat × List (String × Nat)
  | [], d => (0, d)
  | p :: ps, d =>
    let vd := dget d p
    let rec' := statsGo ps vd.2
    ((if vd.1 < PROXY_REMOVE_AFTER then 1 else 0) + rec'.1, rec'.2)

/-- `get_proxy_stats()`: total pool size, healthy count, and a copy of the
(by then possibly grown) failure-count dict. -/
def get_proxy_stats (s : ProxyState) : ProxyStats × ProxyState :=
  let total := s.proxy_list.length
  let hd := statsGo s.proxy_list s.proxy_failure_counts
  ({ total_proxies := total, healthy_proxies := hd.1, failure_counts := hd.2 },
   { s with proxy_failure_counts := hd.2 })

/-- Outcome of one HTTP attempt: transport success with a status code, or any
of the caught transport-level exceptions. -/
inductive AttemptOutcome where
  | success (status : Int)
  | transportError
deriving DecidableEq, Repr

/-- Result of `requests_get`: a returned response (its status code), the
terminal `RequestException(f"Failed after {max_attempts} attempts...")`
carrying the diagnostic stats, or the terminal
`RequestException("No proxies available")`. -/
inductive FetchResult where
  | response (status : Int)
  | exhausted (max_attempts : Int) (stats : ProxyStats)
  | noProxies
deriving DecidableEq, Repr

/-- The `while attempt < max_attempts` loop of `requests_get`, in fuel form:
`fuel` is the remaining attempt budget `max_attempts - attempt`, so `fuel = 0`
is exactly the loop exit into the terminal raise.  Each iteration optionally
re-derives and reshuffles the local snapshot (raising when it is empty), then
issues one HTTP attempt via the oracle and classifies it. -/
def requests_get_go (oracle : Nat → String → AttemptOutcome) (file : Option (List String))
    (shuffle : Nat → List String → List String) (max_attempts : Int) :
    Nat → Nat → Nat → List String → ProxyState → FetchResult × ProxyState
  | 0, _, _, _, s =>
    let ts := get_proxy_stats s
    (FetchResult.exhausted max_attempts ts.1, ts.2)
  | fuel + 1, attempt, i, l, s =>
    match (if i ≥ l.length then
             let s1 := _ensure_global_proxies file s
             let ls := _snapshot_local s1
             if ls.1 = [] then Sum.inl ls.2
             else Sum.inr (0, shuffle attempt ls.1, ls.2)
           else Sum.inr (i, l, s) : Sum ProxyState (Nat × List String × ProxyState)) with
    | Sum.inl s2 => (FetchResult.noProxies, s2)
    | Sum.inr (i0, loc, s0) =>
      let proxy := loc.getD i0 ""
      let s1 := { s0 with http_attempts := s0.http_attempts + 1 }
      match oracle (attempt + 1) proxy with
      | AttemptOutcome.success status =>
        if _is_retryable_status status then
          requests_get_go oracle file shuffle max_attempts fuel (attempt + 1) (i0 + 1) loc
            (_handle_proxy_failure s1 (some proxy))
        else
          (FetchResult.response status, _handle_proxy_success s1 (some proxy))
      | AttemptOutcome.transportError =>
        requests_get_go oracle file shuffle max_attempts fuel (attempt + 1) (i0 + 1) loc
          (_handle_proxy_failure s1 (some proxy))

/-- `requests_get(url, ..., max_attempts)`: lazy seeding, initial snapshot and
shuffle, then the retry loop. -/
def requests_get (oracle : Nat → String → AttemptOutcome) (file : Option (List String))
    (shuffle : Nat → List String → List String) (max_attempts : Int) (s : ProxyState) :
    FetchResult × ProxyState :=
  let s1 := _ensure_global_proxies file s
  let ls := _snapshot_local s1
  requests_get_go oracle file shuffle max_attempts max_attempts.toNat 0 0 (shuffle 0 ls.1) ls.2

/-- Proof-layer abbreviation: the part of a loop iteration from proxy
selection to outcome classification, used to state step equations for
`requests_get_go`. -/
def goStep (oracle : Nat → String → AttemptOutcome) (file : Option (List String))
    (shuffle : Nat → List String → List String) (max_attempts : Int)
    (fuel attempt i0 : Nat) (loc : List String) (s0 : ProxyState) :
    FetchResult × ProxyState :=
  let proxy := loc.getD i0 ""
  let s1 := { s0 with http_attempts := s0.http_attempts + 1 }
  match oracle (attempt + 1) proxy with
  | AttemptOutcome.success status =>
    if _is_retryable_status status then
      requests_get_go oracle file shuffle max_attempts fuel (attempt + 1) (i0 + 1) loc
        (_handle_proxy_failure s1 (some proxy))
    else
      (FetchResult.response status, _handle_proxy_success s1 (some proxy))
  | AttemptOutcome.transportError =>
    requests_get_go oracle file shuffle max_attempts fuel (attempt + 1) (i0 + 1) loc
      (_handle_proxy_failure s1 (some proxy))

/-- The operations the program performs on the shared pool state: the Health
Tracker recordings, lazy seeding by the Pool Loader, taking a usable
snapshot, and the stats query. -/
inductive PoolOp where
  | recordSuccess (p : Option String)
  | recordFailure (p : Option String)
  | ensureSeed (file : Option (List String))
  | snapshot
  | stats
deriving DecidableEq, Repr

/-- Effect of one pool operation on the state. -/
def applyOp (s : ProxyState) : PoolOp → ProxyState
  | PoolOp.recordSuccess p => _handle_proxy_success s p
  | PoolOp.recordFailure p => _handle_proxy_failure s p
  | PoolOp.ensureSeed file => _ensure_global_proxies file s
  | PoolOp.snapshot => (_snapshot_local s).2
  | PoolOp.stats => (get_proxy_stats s).2

/-- Effect of a sequence of pool operations, applied left to right. -/
def applyOps (s : ProxyState) : List PoolOp → ProxyState
  | [] => s
  | op :: ops => applyOps (applyOp s op) ops

/-- Whether an operation is the lazy re-seeding of the pool — the only pool
operation that can ever grow the address list. -/
def PoolOp.isSeed : PoolOp → Bool
  | PoolOp.ensureSeed _ => true
  | _ => false

/-- The spec's pool invariant: an address stored in the failure-count map
with a count that reached `PROXY_REMOVE_AFTER` never appears in the address
list. -/
def poolInvariant (s : ProxyState) : Prop :=
  ∀ p c, dictLookup s.proxy_failure_counts p = some c →
    PROXY_REMOVE_AFTER ≤ c → p ∉ s.proxy_list

/-- Strengthened invariant used to prove `poolInvariant`: no entry of the
failure-count map ever stores a count that reached `PROXY_REMOVE_AFTER`,
because removal happens in the same operation as the increment. -/
def countsBounded (s : ProxyState) : Prop :=
  ∀ e ∈ s.proxy_failure_counts, e.2 < PROXY_REMOVE_AFTER

/-- Whether a fetch result is the attempts-exhausted terminal error. -/
def FetchResult.isExhausted : FetchResult → Bool
  | FetchResult.exhausted _ _ => true
  | _ => false

/-- Unfolding of `requests_get` into its seeding/snapshot prelude and loop. -/
theorem requests_get_eq (oracle : Nat → String → AttemptOutcome)
    (file : Option (List String)) (shuffle : Nat → List String → List String)
    (ma : Int) (s : ProxyState) :
    requests_get oracle file shuffle ma s
      = requests_get_go oracle file shuffle ma ma.toNat 0 0
          (shuffle 0 (_snapshot_local (_ensure_global_proxies file s)).1)
          (_snapshot_local (_ensure_global_proxies file s)).2 := rfl

theorem dictLookup_dset_self (d : List (String × Nat)) (k : String) (v : Nat) :
    dictLookup (dset d k v) k = some v := by
  induction d with
  | nil => simp [dset, dictLookup]
  | cons hd tl ih =>
    obtain ⟨k', v'⟩ := hd
    by_cases h : k' = k <;> simp [dset, dictLookup, h, ih]

theorem dictLookup_dset_ne (d : List (String × Nat)) (k : String) (v : Nat) (q : String)
    (h : k ≠ q) : dictLookup (dset d k v) q = dictLookup d q := by
  induction d with
  | nil => simp [dset, dictLookup, h]
  | cons hd tl ih =>
    obtain ⟨k', v'⟩ := hd
    by_cases hk : k' = k
    · subst hk; simp [dset, dictLookup, h]
    · simp [dset, dictLookup, hk, ih]

theorem dictLookup_append (d l : List (String × Nat)) (q : String) :
    dictLookup (d ++ l) q = (dictLookup d q).or (dictLookup l q) := by
  induction d with
  | nil => simp [dictLookup]
  | cons hd tl ih =>
    obtain ⟨k', v'⟩ := hd
    by_cases h : k' = q <;> simp [dictLookup, h, ih]

theorem dget_fst (d : List (String × Nat)) (k : String) : (dget d k).1 = countD d k := by
  unfold dget countD
  cases h : dictLookup d k <;> simp [h]

theorem countD_dget_snd (d : List (String × Nat)) (k q : String) :
    countD (dget d k).2 q = countD d q := by
  unfold dget
  cases h : dictLookup d k with
  | some v => rfl
  | none =>
    simp only [countD, dictLookup_append]
    cases hq : dictLookup d q with
    | some w => simp
    | none =>
      by_cases hkq : k = q
      · subst hkq; simp [dictLookup]
      · simp [dictLookup, hkq]

theorem dictLookup_dget_snd (d : List (String × Nat)) (k q : String) (c : Nat)
    (h : dictLookup (dget d k).2 q = some c) :
    dictLookup d q = some c ∨ (c = 0 ∧ k = q) := by
  unfold dget at h
  cases hk : dictLookup d k with
  | some v => rw [hk] at h; exact Or.inl h
  | none =>
    rw [hk] at h
    simp only [dictLookup_append] at h
    cases hq : dictLookup d q with
    | some w => rw [hq] at h; simp at h; exact Or.inl (by rw [← h])
    | none =>
      rw [hq] at h
      simp only [Option.none_or] at h
      by_cases hkq : k = q
      · simp [dictLookup, hkq] at h; exact Or.inr ⟨h.symm, hkq⟩
      · simp [dictLookup, hkq] at h

theorem snapGo_fst (l : List String) (d : List (String × Nat)) :
    (snapGo l d).1 = l.filter (fun p => countD d p < SOFT_EXCLUDE_AFTER) := by
  induction l generalizing d with
  | nil => simp [snapGo]
  | cons p ps ih =>
    simp only [snapGo, List.filter_cons]
    rw [ih, dget_fst]
    have hfe : ps.filter (fun q => countD (dget d p).2 q < SOFT_EXCLUDE_AFTER)
        = ps.filter (fun q => countD d q < SOFT_EXCLUDE_AFTER) :=
      List.filter_congr (fun q _ => by rw [countD_dget_snd])
    by_cases hc : countD d p < SOFT_EXCLUDE_AFTER <;> simp [hc, hfe]

theorem countD_snapGo_snd (l : List String) (d : List (String × Nat)) (q : String) :
    countD (snapGo l d).2 q = countD d q := by
  induction l generalizing d with
  | nil => rfl
  | cons p ps ih => simp only [snapGo]; rw [ih, countD_dget_snd]

theorem dictLookup_snapGo_snd (l : List String) (d : List (String × Nat)) (q : String) (c : Nat)
    (h : dictLookup (snapGo l d).2 q = some c) :
    dictLookup d q = some c ∨ (c = 0 ∧ q ∈ l) := by
  induction l generalizing d with
  | nil => exact Or.inl h
  | cons p ps ih =>
    simp only [snapGo] at h
    rcases ih _ h with h' | h'
    · rcases dictLookup_dget_snd _ _ _ _ h' with h'' | h''
      · exact Or.inl h''
      · exact Or.inr ⟨h''.1, by simp [h''.2.symm]⟩
    · exact Or.inr ⟨h'.1, by simp [h'.2]⟩

theorem statsGo_fst (l : List String) (d : List (String × Nat)) :
    (statsGo l d).1 = (l.filter (fun p => countD d p < PROXY_REMOVE_AFTER)).length := by
  induction l generalizing d with
  | nil => simp [statsGo]
  | cons p ps ih =>
    simp only [statsGo, List.filter_cons]
    rw [ih, dget_fst]
    have hfe : ps.filter (fun q => countD (dget d p).2 q < PROXY_REMOVE_AFTER)
        = ps.filter (fun q => countD d q < PROXY_REMOVE_AFTER) :=
      List.filter_congr (fun q _ => by rw [countD_dget_snd])
    by_cases hc : countD d p < PROXY_REMOVE_AFTER
    · simp [hc, hfe]; omega
    · simp [hc, hfe]

theorem countD_statsGo_snd (l : List String) (d : List (String × Nat)) (q : String) :
    countD (statsGo l d).2 q = countD d q := by
  induction l generalizing d with
  | nil => rfl
  | cons p ps ih => simp only [statsGo]; rw [ih, countD_dget_snd]

theorem dictLookup_statsGo_snd (l : List String) (d : List (String × Nat)) (q : String) (c : Nat)
    (h : dictLookup (statsGo l d).2 q = some c) :
    dictLookup d q = some c ∨ (c = 0 ∧ q ∈ l) := by
  induction l generalizing d with
  | nil => exact Or.inl h
  | cons p ps ih =>
    simp only [statsGo] at h
    rcases ih _ h with h' | h'
    · rcases dictLookup_dget_snd _ _ _ _ h' with h'' | h''
      · exact Or.inl h''
      · exact Or.inr ⟨h''.1, by simp [h''.2.symm]⟩
    · exact Or.inr ⟨h'.1, by simp [h'.2]⟩

theorem snapshot_snd_proxy_list (s : ProxyState) :
    (_snapshot_local s).2.proxy_list = s.proxy_list := rfl

theorem snapshot_snd_http (s : ProxyState) :
    (_snapshot_local s).2.http_attempts = s.http_attempts := rfl

theorem snapshot_snd_success (s : ProxyState) :
    (_snapshot_local s).2.success_events = s.success_events := rfl

theorem snapshot_snd_failure (s : ProxyState) :
    (_snapshot_local s).2.failure_events = s.failure_events := rfl

theorem snapshot_snd_countD (s : ProxyState) (q : String) :
    countD (_snapshot_local s).2.proxy_failure_counts q = countD s.proxy_failure_counts q :=
  countD_snapGo_snd _ _ _

theorem stats_snd_proxy_list (s : ProxyState) :
    (get_proxy_stats s).2.proxy_list = s.proxy_list := rfl

theorem stats_snd_http (s : ProxyState) :
    (get_proxy_stats s).2.http_attempts = s.http_attempts := rfl

theorem stats_snd_success (s : ProxyState) :
    (get_proxy_stats s).2.success_events = s.success_events := rfl

theorem stats_snd_failure (s : ProxyState) :
    (get_proxy_stats s).2.failure_events = s.failure_events := rfl

theorem stats_snd_countD (s : ProxyState) (q : String) :
    countD (get_proxy_stats s).2.proxy_failure_counts q = countD s.proxy_failure_counts q :=
  countD_statsGo_snd _ _ _

theorem stats_fst_total (s : ProxyState) :
    (get_proxy_stats s).1.total_proxies = s.proxy_list.length := rfl

theorem stats_fst_failure_counts (s : ProxyState) :
    (get_proxy_stats s).1.failure_counts = (get_proxy_stats s).2.proxy_failure_counts := rfl

theorem stats_fst_healthy (s : ProxyState) :
    (get_proxy_stats s).1.healthy_proxies
      = (s.proxy_list.filter
          (fun p => countD s.proxy_failure_counts p < PROXY_REMOVE_AFTER)).length :=
  statsGo_fst _ _

theorem ensure_counts (file : Option (List String)) (s : ProxyState) :
    (_ensure_global_proxies file s).proxy_failure_counts = s.proxy_failure_counts := by
  unfold _ensure_global_proxies
  split
  · rfl
  · dsimp only
    split <;> rfl

theorem ensure_http (file : Option (List String)) (s : ProxyState) :
    (_ensure_global_proxies file s).http_attempts = s.http_attempts := by
  unfold _ensure_global_proxies
  split
  · rfl
  · dsimp only
    split <;> rfl

theorem ensure_success (file : Option (List String)) (s : ProxyState) :
    (_ensure_global_proxies file s).success_events = s.success_events := by
  unfold _ensure_global_proxies
  split
  · rfl
  · dsimp only
    split <;> rfl

theorem ensure_failure (file : Option (List String)) (s : ProxyState) :
    (_ensure_global_proxies file s).failure_events = s.failure_events := by
  unfold _ensure_global_proxies
  split
  · rfl
  · dsimp only
    split <;> rfl

theorem ensure_of_nonempty (file : Option (List String)) (s : ProxyState)
    (h : s.proxy_list ≠ []) : _ensure_global_proxies file s = s := by
  unfold _ensure_global_proxies
  simp [h]

theorem failure_http (s : ProxyState) (p : Option String) :
    (_handle_proxy_failure s p).http_attempts = s.http_attempts := by
  unfold _handle_proxy_failure
  cases p with
  | none => rfl
  | some q =>
    by_cases h : q = ""
    · simp [h]
    · simp only [h, if_false]
      split <;> rfl

theorem failure_success_events (s : ProxyState) (p : Option String) :
    (_handle_proxy_failure s p).success_events = s.success_events := by
  unfold _handle_proxy_failure
  cases p with
  | none => rfl
  | some q =>
    by_cases h : q = ""
    · simp [h]
    · simp only [h, if_false]
      split <;> rfl

theorem success_http (s : ProxyState) (p : Option String) :
    (_handle_proxy_success s p).http_attempts = s.http_attempts := by
  unfold _handle_proxy_success
  cases p with
  | none => rfl
  | some q => by_cases h : q = "" <;> simp [h]

theorem success_failure_events (s : ProxyState) (p : Option String) :
    (_handle_proxy_success s p).failure_events = s.failure_events := by
  unfold _handle_proxy_success
  cases p with
  | none => rfl
  | some q => by_cases h : q = "" <;> simp [h]

theorem requests_get_go_zero (oracle : Nat → String → AttemptOutcome)
    (file : Option (List String)) (shuffle : Nat → List String → List String)
    (ma : Int) (attempt i : Nat) (l : List String) (s : ProxyState) :
    requests_get_go oracle file shuffle ma 0 attempt i l s
      = (FetchResult.exhausted ma (get_proxy_stats s).1, (get_proxy_stats s).2) := rfl

theorem requests_get_go_succ_sel (oracle : Nat → String → AttemptOutcome)
    (file : Option (List String)) (shuffle : Nat → List String → List String)
    (ma : Int) (fuel attempt i : Nat) (l : List String) (s : ProxyState)
    (hi : ¬ i ≥ l.length) :
    requests_get_go oracle file shuffle ma (fuel + 1) attempt i l s
      = goStep oracle file shuffle ma fuel attempt i l s := by
  simp only [requests_get_go, goStep, if_neg hi]

theorem requests_get_go_succ_resnap_empty (oracle : Nat → String → AttemptOutcome)
    (file : Option (List String)) (shuffle : Nat → List String → List String)
    (ma : Int) (fuel attempt i : Nat) (l : List String) (s : ProxyState)
    (hi : i ≥ l.length)
    (he : (_snapshot_local (_ensure_global_proxies file s)).1 = []) :
    requests_get_go oracle file shuffle ma (fuel + 1) attempt i l s
      = (FetchResult.noProxies, (_snapshot_local (_ensure_global_proxies file s)).2) := by
  simp only [requests_get_go, if_pos hi, if_pos he]

theorem requests_get_go_succ_resnap (oracle : Nat → String → AttemptOutcome)
    (file : Option (List String)) (shuffle : Nat → List String → List String)
    (ma : Int) (fuel attempt i : Nat) (l : List String) (s : ProxyState)
    (hi : i ≥ l.length)
    (he : (_snapshot_local (_ensure_global_proxies file s)).1 ≠ []) :
    requests_get_go oracle file shuffle ma (fuel + 1) attempt i l s
      = goStep oracle file shuffle ma fuel attempt 0
          (shuffle attempt (_snapshot_local (_ensure_global_proxies file s)).1)
          (_snapshot_local (_ensure_global_proxies file s)).2 := by
  simp only [requests_get_go, goStep, if_pos hi, if_neg he]

theorem go_response_not_retryable (oracle : Nat → String → AttemptOutcome)
    (file : Option (List String)) (shuffle : Nat → List String → List String) (ma : Int) :
    ∀ fuel attempt i l s status,
      (requests_get_go oracle file shuffle ma fuel attempt i l s).1
        = FetchResult.response status →
      _is_retryable_status status = false := by
  intro fuel
  induction fuel with
  | zero =>
    intro attempt i l s status h
    rw [requests_get_go_zero] at h
    simp at h
  | succ n ih =>
    have hstep : ∀ attempt i0 loc s0 status,
        (goStep oracle file shuffle ma n attempt i0 loc s0).1 = FetchResult.response status →
        _is_retryable_status status = false := by
      intro attempt i0 loc s0 status hg
      unfold goStep at hg
      dsimp only at hg
      split at hg
      · split at hg
        · exact ih _ _ _ _ _ hg
        · next st hr =>
          simp only [Prod.fst] at hg
          cases hg
          simpa using hr
      · exact ih _ _ _ _ _ hg
    intro attempt i l s status h
    by_cases hi : i ≥ l.length
    · by_cases he : (_snapshot_local (_ensure_global_proxies file s)).1 = []
      · rw [requests_get_go_succ_resnap_empty oracle file shuffle ma n attempt i l s hi he] at h
        simp at h
      · rw [requests_get_go_succ_resnap oracle file shuffle ma n attempt i l s hi he] at h
        exact hstep _ _ _ _ _ h
    · rw [requests_get_go_succ_sel oracle file shuffle ma n attempt i l s hi] at h
      exact hstep _ _ _ _ _ h

theorem go_exhausted_http (oracle : Nat → String → AttemptOutcome)
    (file : Option (List String)) (shuffle : Nat → List String → List String) (ma : Int) :
    ∀ fuel attempt i l s,
      (requests_get_go oracle file shuffle ma fuel attempt i l s).1.isExhausted = true →
      (requests_get_go oracle file shuffle ma fuel attempt i l s).2.http_attempts
        = s.http_attempts + fuel := by
  intro fuel
  induction fuel with
  | zero =>
    intro attempt i l s _
    rw [requests_get_go_zero]
    simpa using stats_snd_http s
  | succ n ih =>
    have hstep : ∀ attempt i0 loc s0,
        (goStep oracle file shuffle ma n attempt i0 loc s0).1.isExhausted = true →
        (goStep oracle file shuffle ma n attempt i0 loc s0).2.http_attempts
          = s0.http_attempts + (n + 1) := by
      intro attempt i0 loc s0
      unfold goStep
      dsimp only
      cases ho : oracle (attempt + 1) (loc.getD i0 "") with
      | success st =>
        dsimp only
        by_cases hr : _is_retryable_status st = true
        · rw [if_pos hr]
          intro hg
          rw [ih _ _ _ _ hg, failure_http]
          dsimp only
          omega
        · rw [if_neg hr]
          intro hg
          simp [FetchResult.isExhausted] at hg
      | transportError =>
        dsimp only
        intro hg
        rw [ih _ _ _ _ hg, failure_http]
        dsimp only
        omega
    intro attempt i l s h
    by_cases hi : i ≥ l.length
    · by_cases he : (_snapshot_local (_ensure_global_proxies file s)).1 = []
      · rw [requests_get_go_succ_resnap_empty oracle file shuffle ma n attempt i l s hi he] at h
        simp [FetchResult.isExhausted] at h
      · rw [requests_get_go_succ_resnap oracle file shuffle ma n attempt i l s hi he] at h ⊢
        rw [hstep _ _ _ _ h, snapshot_snd_http, ensure_http]
    · rw [requests_get_go_succ_sel oracle file shuffle ma n attempt i l s hi] at h ⊢
      exact hstep _ _ _ _ h

theorem go_cases (oracle : Nat → String → AttemptOutcome)
    (file : Option (List String)) (shuffle : Nat → List String → List String) (ma : Int) :
    ∀ fuel attempt i l s,
      (∃ status, (requests_get_go oracle file shuffle ma fuel attempt i l s).1
          = FetchResult.response status) ∨
      (∃ st, (requests_get_go oracle file shuffle ma fuel attempt i l s).1
            = FetchResult.exhausted ma st
          ∧ st.failure_counts
            = (requests_get_go oracle file shuffle ma fuel attempt i l s).2.proxy_failure_counts
          ∧ st.total_proxies
            = (requests_get_go oracle file shuffle ma fuel attempt i l s).2.proxy_list.length) ∨
      (requests_get_go oracle file shuffle ma fuel attempt i l s).1 = FetchResult.noProxies := by
  intro fuel
  induction fuel with
  | zero =>
    intro attempt i l s
    rw [requests_get_go_zero]
    refine Or.inr (Or.inl ⟨(get_proxy_stats s).1, rfl, ?_, ?_⟩)
    · exact stats_fst_failure_counts s
    · rw [stats_fst_total, stats_snd_proxy_list]
  | succ n ih =>
    have hstep : ∀ attempt i0 loc s0,
        (∃ status, (goStep oracle file shuffle ma n attempt i0 loc s0).1
            = FetchResult.response status) ∨
        (∃ st, (goStep oracle file shuffle ma n attempt i0 loc s0).1
              = FetchResult.exhausted ma st
            ∧ st.failure_counts
              = (goStep oracle file shuffle ma n attempt i0 loc s0).2.proxy_failure_counts
            ∧ st.total_proxies
              = (goStep oracle file shuffle ma n attempt i0 loc s0).2.proxy_list.length) ∨
        (goStep oracle file shuffle ma n attempt i0 loc s0).1 = FetchResult.noProxies := by
      intro attempt i0 loc s0
      unfold goStep
      dsimp only
      cases ho : oracle (attempt + 1) (loc.getD i0 "") with
      | success st =>
        dsimp only
        by_cases hr : _is_retryable_status st = true
        · rw [if_pos hr]
          exact ih _ _ _ _
        · rw [if_neg hr]
          exact Or.inl ⟨st, rfl⟩
      | transportError =>
        dsimp only
        exact ih _ _ _ _
    intro attempt i l s
    by_cases hi : i ≥ l.length
    · by_cases he : (_snapshot_local (_ensure_global_proxies file s)).1 = []
      · rw [requests_get_go_succ_resnap_empty oracle file shuffle ma n attempt i l s hi he]
        exact Or.inr (Or.inr rfl)
      · rw [requests_get_go_succ_resnap oracle file shuffle ma n attempt i l s hi he]
        exact hstep _ _ _ _
    · rw [requests_get_go_succ_sel oracle file shuffle ma n attempt i l s hi]
      exact hstep _ _ _ _

theorem snapshot_of_empty (s : ProxyState) (h : s.proxy_list = []) :
    _snapshot_local s = ([], s) := by
  obtain ⟨pl, d, ha, hs, hf⟩ := s
  simp only at h
  subst h
  simp [_snapshot_local, snapGo]

theorem ensure_of_empty_load (file : Option (List String)) (s : ProxyState)
    (h : s.proxy_list = []) (hl : _get_proxies file = []) :
    _ensure_global_proxies file s = s := by
  unfold _ensure_global_proxies
  simp [h, hl]

/-- C1: for every URL (oracle), every outcome sequence, shuffle behaviour,
attempt budget and pool state, `requests_get` never returns a response whose
status is in the retryable set: whenever it returns a response at all, that
response's status is non-retryable (otherwise it raises one of the terminal
errors, never a retryable response). -/
theorem claim_C1_fetch_never_returns_retryable (oracle : Nat → String → AttemptOutcome)
    (file : Option (List String)) (shuffle : Nat → List String → List String)
    (ma : Int) (s : ProxyState) (status : Int)
    (h : (requests_get oracle file shuffle ma s).1 = FetchResult.response status) :
    _is_retryable_status status = false := by
  rw [requests_get_eq] at h
  exact go_response_not_retryable oracle file shuffle ma _ _ _ _ _ _ h

/-- Witness for C1: a concrete run that does return a response (status 200),
whose status is indeed outside the retryable set. -/
theorem claim_C1_witness :
    (requests_get (fun _ _ => AttemptOutcome.success 200) (some ["1.2.3.4:8080"])
        (fun _ l => l) 1 initialState).1 = FetchResult.response 200
      ∧ _is_retryable_status 200 = false :=
  ⟨by decide,
   claim_C1_fetch_never_returns_retryable (fun _ _ => AttemptOutcome.success 200)
     (some ["1.2.3.4:8080"]) (fun _ l => l) 1 initialState 200 (by decide)⟩

/-- C3: `requests_get` is a total function (the loop is bounded by the attempt
budget, so it can neither hang nor crash) and its result is always either a
returned response or one of exactly two terminal errors: the
attempts-exhausted error — which carries the then-current pool stats and is
raised exactly after consuming the whole attempt budget (`http_attempts`
grows by `max_attempts.toNat`) — or the no-proxies error; with an empty pool
that re-seeding cannot replenish, the no-proxies error is raised immediately,
with no HTTP attempt made and the state untouched (pool exhaustion does not
count against `max_attempts`). -/
theorem claim_C3_exhaustion_terminal_cases :
    (∀ (oracle : Nat → String → AttemptOutcome) (file : Option (List String))
        (shuffle : Nat → List String → List String) (ma : Int) (s : ProxyState),
      (∃ status, (requests_get oracle file shuffle ma s).1 = FetchResult.response status) ∨
      (∃ st, (requests_get oracle file shuffle ma s).1 = FetchResult.exhausted ma st
          ∧ st.failure_counts = (requests_get oracle file shuffle ma s).2.proxy_failure_counts
          ∧ st.total_proxies = (requests_get oracle file shuffle ma s).2.proxy_list.length) ∨
      (requests_get oracle file shuffle ma s).1 = FetchResult.noProxies) ∧
    (∀ (oracle : Nat → String → AttemptOutcome) (file : Option (List String))
        (shuffle : Nat → List String → List String) (ma : Int) (s : ProxyState),
      (requests_get oracle file shuffle ma s).1.isExhausted = true →
      (requests_get oracle file shuffle ma s).2.http_attempts = s.http_attempts + ma.toNat) ∧
    (∀ (oracle : Nat → String → AttemptOutcome) (file : Option (List String))
        (shuffle : Nat → List String → List String) (ma : Int) (s : ProxyState),
      0 < ma → s.proxy_list = [] → _get_proxies file = [] → shuffle 0 [] = [] →
      requests_get oracle file shuffle ma s = (FetchResult.noProxies, s)) := by
  refine ⟨?_, ?_, ?_⟩
  · intro oracle file shuffle ma s
    rw [requests_get_eq]
    exact go_cases oracle file shuffle ma _ _ _ _ _
  · intro oracle file shuffle ma s h
    rw [requests_get_eq] at h ⊢
    rw [go_exhausted_http oracle file shuffle ma _ _ _ _ _ h]
    rw [snapshot_snd_http, ensure_http]
  · intro oracle file shuffle ma s hma hempty hload hsh
    have he : _ensure_global_proxies file s = s := ensure_of_empty_load file s hempty hload
    have hsnap : _snapshot_local s = ([], s) := snapshot_of_empty s hempty
    rw [requests_get_eq, he, hsnap]
    dsimp only
    rw [hsh]
    obtain ⟨k, hk⟩ : ∃ k, ma.toNat = k + 1 := ⟨ma.toNat - 1, by omega⟩
    rw [hk]
    rw [requests_get_go_succ_resnap_empty oracle file shuffle ma k 0 0 [] s (by simp)
      (by rw [he, hsnap])]
    rw [he, hsnap]

/-- Witness for C3: with an empty pool and an unreadable proxy file, a fetch
with budget 1 fails immediately with the no-proxies error and leaves the
state untouched. -/
theorem claim_C3_witness :
    requests_get (fun _ _ => AttemptOutcome.transportError) none (fun _ l => l) 1 initialState
      = (FetchResult.noProxies, initialState) :=
  claim_C3_exhaustion_terminal_cases.2.2 (fun _ _ => AttemptOutcome.transportError) none
    (fun _ l => l) 1 initialState (by decide) rfl rfl rfl

/-- C10: for every `max_attempts ≤ 0`, `requests_get` raises the exhaustion
error immediately: no HTTP attempt is issued and no proxy success or failure
is recorded (all ghost counters unchanged and every failure count unchanged),
regardless of the oracle (URL) and of the pool contents. -/
theorem claim_C10_nonpositive_budget (oracle : Nat → String → AttemptOutcome)
    (file : Option (List String)) (shuffle : Nat → List String → List String)
    (ma : Int) (s : ProxyState) (hma : ma ≤ 0) :
    (∃ st, (requests_get oracle file shuffle ma s).1 = FetchResult.exhausted ma st)
      ∧ (requests_get oracle file shuffle ma s).2.http_attempts = s.http_attempts
      ∧ (requests_get oracle file shuffle ma s).2.success_events = s.success_events
      ∧ (requests_get oracle file shuffle ma s).2.failure_events = s.failure_events
      ∧ ∀ q, countD (requests_get oracle file shuffle ma s).2.proxy_failure_counts q
          = countD s.proxy_failure_counts q := by
  have h0 : ma.toNat = 0 := Int.toNat_of_nonpos hma
  rw [requests_get_eq, h0, requests_get_go_zero]
  refine ⟨⟨_, rfl⟩, ?_, ?_, ?_, ?_⟩
  · rw [stats_snd_http, snapshot_snd_http, ensure_http]
  · rw [stats_snd_success, snapshot_snd_success, ensure_success]
  · rw [stats_snd_failure, snapshot_snd_failure, ensure_failure]
  · intro q
    rw [stats_snd_countD, snapshot_snd_countD, ensure_counts]

/-- Witness for C10: a concrete run with budget -1 makes no HTTP attempt. -/
theorem claim_C10_witness :
    ((-1 : Int) ≤ 0)
      ∧ (requests_get (fun _ _ => AttemptOutcome.transportError) none (fun _ l => l) (-1)
          initialState).2.http_attempts = initialState.http_attempts :=
  ⟨by decide,
   (claim_C10_nonpositive_budget (fun _ _ => AttemptOutcome.transportError) none
      (fun _ l => l) (-1) initialState (by decide)).2.1⟩

theorem snapshot_fst_eq (s : ProxyState) :
    (_snapshot_local s).1
      = if s.proxy_list.filter
            (fun p => countD s.proxy_failure_counts p < SOFT_EXCLUDE_AFTER) = []
        then s.proxy_list
        else s.proxy_list.filter
            (fun p => countD s.proxy_failure_counts p < SOFT_EXCLUDE_AFTER) := by
  unfold _snapshot_local
  dsimp only
  rw [snapGo_fst]

/-- C4: `_snapshot_local` returns exactly the pool addresses whose failure
count is below `SOFT_EXCLUDE_AFTER` whenever that filtered list is non-empty,
and falls back to the full address list (never an empty sequence) whenever
the pool is non-empty but every address has failure count at least
`SOFT_EXCLUDE_AFTER`. -/
theorem claim_C4_snapshot_usable (s : ProxyState) :
    (s.proxy_list.filter
        (fun p => countD s.proxy_failure_counts p < SOFT_EXCLUDE_AFTER) ≠ [] →
      (_snapshot_local s).1
        = s.proxy_list.filter
            (fun p => countD s.proxy_failure_counts p < SOFT_EXCLUDE_AFTER))
    ∧ (s.proxy_list ≠ [] →
        (∀ p ∈ s.proxy_list, SOFT_EXCLUDE_AFTER ≤ countD s.proxy_failure_counts p) →
        (_snapshot_local s).1 = s.proxy_list) := by
  constructor
  · intro hne
    rw [snapshot_fst_eq, if_neg hne]
  · intro _ hall
    have hf : s.proxy_list.filter
        (fun p => countD s.proxy_failure_counts p < SOFT_EXCLUDE_AFTER) = [] := by
      rw [List.filter_eq_nil_iff]
      intro p hp
      have := hall p hp
      simp only [decide_eq_true_eq]
      omega
    rw [snapshot_fst_eq, if_pos hf]

/-- Witness for C4: one concrete pool where the below-threshold subset is
returned, and one where every address is soft-excluded and the full list is
returned instead. -/
theorem claim_C4_witness :
    (_snapshot_local ⟨["a:1", "b:2"], [("a:1", 1)], 0, 0, 0⟩).1 = ["b:2"]
      ∧ (_snapshot_local ⟨["a:1"], [("a:1", 1)], 0, 0, 0⟩).1 = ["a:1"] := by
  constructor
  · have h := (claim_C4_snapshot_usable ⟨["a:1", "b:2"], [("a:1", 1)], 0, 0, 0⟩).1 (by decide)
    rw [h]
    decide
  · exact (claim_C4_snapshot_usable ⟨["a:1"], [("a:1", 1)], 0, 0, 0⟩).2 (by decide) (by decide)

/-- C9: for every pool state and every (non-falsy) proxy address, recording a
success sets that address's stored failure count to 0, leaves the address
list unchanged, and — since 0 is below `SOFT_EXCLUDE_AFTER` — makes the
address appear in the usable snapshot whenever it is in the address list. -/
theorem claim_C9_success_resets (s : ProxyState) (p : String) (hp : p ≠ "") :
    dictLookup (_handle_proxy_success s (some p)).proxy_failure_counts p = some 0
      ∧ (_handle_proxy_success s (some p)).proxy_list = s.proxy_list
      ∧ (p ∈ s.proxy_list → p ∈ (_snapshot_local (_handle_proxy_success s (some p))).1) := by
  have hset : (_handle_proxy_success s (some p)).proxy_failure_counts
      = dset s.proxy_failure_counts p 0 := by
    simp [_handle_proxy_success, hp]
  have hlist : (_handle_proxy_success s (some p)).proxy_list = s.proxy_list := by
    simp [_handle_proxy_success, hp]
  refine ⟨by rw [hset, dictLookup_dset_self], hlist, ?_⟩
  intro hmem
  have hc : countD (_handle_proxy_success s (some p)).proxy_failure_counts p = 0 := by
    rw [countD, hset, dictLookup_dset_self]
    rfl
  have hfmem : p ∈ (_handle_proxy_success s (some p)).proxy_list.filter
      (fun q => countD (_handle_proxy_success s (some p)).proxy_failure_counts q
        < SOFT_EXCLUDE_AFTER) := by
    rw [List.mem_filter]
    exact ⟨by rw [hlist]; exact hmem, by simp [hc, SOFT_EXCLUDE_AFTER]⟩
  rw [snapshot_fst_eq, if_neg (List.ne_nil_of_mem hfmem)]
  exact hfmem

/-- Witness for C9: a proxy with stored failure count 5 is reset to 0 by a
recorded success and reappears in the usable snapshot. -/
theorem claim_C9_witness :
    dictLookup (_handle_proxy_success ⟨["x:1"], [("x:1", 5)], 0, 0, 0⟩
        (some "x:1")).proxy_failure_counts "x:1" = some 0
      ∧ "x:1" ∈ (_snapshot_local (_handle_proxy_success ⟨["x:1"], [("x:1", 5)], 0, 0, 0⟩
        (some "x:1"))).1 := by
  have h := claim_C9_success_resets ⟨["x:1"], [("x:1", 5)], 0, 0, 0⟩ "x:1" (by decide)
  exact ⟨h.1, h.2.2 (by decide)⟩

theorem dictLookup_mem (d : List (String × Nat)) (k : String) (c : Nat)
    (h : dictLookup d k = some c) : (k, c) ∈ d := by
  induction d with
  | nil => simp [dictLookup] at h
  | cons hd tl ih =>
    obtain ⟨k', v'⟩ := hd
    by_cases hk : k' = k
    · subst hk
      simp [dictLookup] at h
      simp [h]
    · simp only [dictLookup, if_neg hk] at h
      exact List.mem_cons_of_mem _ (ih h)

theorem mem_dget_snd (d : List (String × Nat)) (k : String) (e : String × Nat)
    (h : e ∈ (dget d k).2) : e ∈ d ∨ e = (k, 0) := by
  unfold dget at h
  cases hl : dictLookup d k with
  | some v => rw [hl] at h; exact Or.inl h
  | none =>
    rw [hl] at h
    rcases List.mem_append.mp h with h' | h'
    · exact Or.inl h'
    · simp at h'
      exact Or.inr (by simp [h'])

theorem mem_dset (d : List (String × Nat)) (k : String) (v : Nat) (e : String × Nat)
    (h : e ∈ dset d k v) : e ∈ d ∨ e = (k, v) := by
  induction d with
  | nil => simp [dset] at h; exact Or.inr (by simp [h])
  | cons hd tl ih =>
    obtain ⟨k', v'⟩ := hd
    by_cases hk : k' = k
    · subst hk
      simp only [dset, if_pos rfl] at h
      rcases List.mem_cons.mp h with h' | h'
      · exact Or.inr (by simp [h'])
      · exact Or.inl (List.mem_cons_of_mem _ h')
    · simp only [dset, if_neg hk] at h
      rcases List.mem_cons.mp h with h' | h'
      · exact Or.inl (by simp [h'])
      · rcases ih h' with h'' | h''
        · exact Or.inl (List.mem_cons_of_mem _ h'')
        · exact Or.inr h''

theorem mem_dpop_dset (d : List (String × Nat)) (k : String) (v : Nat) (e : String × Nat)
    (h : e ∈ dpop (dset d k v) k) : e ∈ d := by
  induction d with
  | nil => simp [dset, dpop] at h
  | cons hd tl ih =>
    obtain ⟨k', v'⟩ := hd
    by_cases hk : k' = k
    · subst hk
      simp only [dset, if_pos rfl, dpop] at h
      exact List.mem_cons_of_mem _ h
    · simp only [dset, if_neg hk, dpop] at h
      rcases List.mem_cons.mp h with h' | h'
      · exact List.mem_cons.mpr (Or.inl h')
      · exact List.mem_cons_of_mem _ (ih h')

theorem mem_snapGo_snd (l : List String) (d : List (String × Nat)) (e : String × Nat)
    (h : e ∈ (snapGo l d).2) : e ∈ d ∨ e.2 = 0 := by
  induction l generalizing d with
  | nil => exact Or.inl h
  | cons p ps ih =>
    simp only [snapGo] at h
    rcases ih _ h with h' | h'
    · rcases mem_dget_snd _ _ _ h' with h'' | h''
      · exact Or.inl h''
      · exact Or.inr (by rw [h''])
    · exact Or.inr h'

theorem mem_statsGo_snd (l : List String) (d : List (String × Nat)) (e : String × Nat)
    (h : e ∈ (statsGo l d).2) : e ∈ d ∨ e.2 = 0 := by
  induction l generalizing d with
  | nil => exact Or.inl h
  | cons p ps ih =>
    simp only [statsGo] at h
    rcases ih _ h with h' | h'
    · rcases mem_dget_snd _ _ _ h' with h'' | h''
      · exact Or.inl h''
      · exact Or.inr (by rw [h''])
    · exact Or.inr h'

theorem cb_success (s : ProxyState) (p : Option String) (h : countsBounded s) :
    countsBounded (_handle_proxy_success s p) := by
  unfold _handle_proxy_success
  cases p with
  | none => exact h
  | some q =>
    dsimp only
    by_cases hq : q = ""
    · rw [if_pos hq]; exact h
    · rw [if_neg hq]
      intro e he
      rcases mem_dset _ _ _ _ he with h' | h'
      · exact h e h'
      · rw [h']
        show 0 < PROXY_REMOVE_AFTER
        decide

theorem cb_failure (s : ProxyState) (p : Option String) (h : countsBounded s) :
    countsBounded (_handle_proxy_failure s p) := by
  unfold _handle_proxy_failure
  cases p with
  | none => exact h
  | some q =>
    dsimp only
    by_cases hq : q = ""
    · rw [if_pos hq]; exact h
    · rw [if_neg hq]
      have hget : ∀ e ∈ (dget s.proxy_failure_counts q).2, e.2 < PROXY_REMOVE_AFTER := by
        intro e he
        rcases mem_dget_snd _ _ _ he with h' | h'
        · exact h e h'
        · rw [h']
          show 0 < PROXY_REMOVE_AFTER
          decide
      split
      · intro e he
        exact hget e (mem_dpop_dset _ _ _ _ he)
      · next hc =>
        intro e he
        rcases mem_dset _ _ _ _ he with h' | h'
        · exact hget e h'
        · rw [h']
          omega

theorem cb_ensure (file : Option (List String)) (s : ProxyState) (h : countsBounded s) :
    countsBounded (_ensure_global_proxies file s) := by
  intro e he
  rw [ensure_counts] at he
  exact h e he

theorem cb_snapshot (s : ProxyState) (h : countsBounded s) :
    countsBounded (_snapshot_local s).2 := by
  intro e he
  rcases mem_snapGo_snd _ _ _ he with h' | h'
  · exact h e h'
  · rw [h']; decide

theorem cb_stats (s : ProxyState) (h : countsBounded s) :
    countsBounded (get_proxy_stats s).2 := by
  intro e he
  rcases mem_statsGo_snd _ _ _ he with h' | h'
  · exact h e h'
  · rw [h']; decide

theorem cb_applyOp (s : ProxyState) (op : PoolOp) (h : countsBounded s) :
    countsBounded (applyOp s op) := by
  cases op with
  | recordSuccess p => exact cb_success s p h
  | recordFailure p => exact cb_failure s p h
  | ensureSeed file => exact cb_ensure file s h
  | snapshot => exact cb_snapshot s h
  | stats => exact cb_stats s h

theorem cb_applyOps (s : ProxyState) (ops : List PoolOp) (h : countsBounded s) :
    countsBounded (applyOps s ops) := by
  induction ops generalizing s with
  | nil => exact h
  | cons op ops ih => exact ih _ (cb_applyOp s op h)

theorem poolInvariant_of_cb (s : ProxyState) (h : countsBounded s) : poolInvariant s := by
  intro p c hl hc _
  have := h _ (dictLookup_mem _ _ _ hl)
  simp only at this
  omega

/-- C7: starting from the empty initial state, after every sequence of pool
operations (recordSuccess, recordFailure, lazy seeding, snapshot, stats) the
pool invariant holds: no address appears in the failure-count map with a
count that reached `PROXY_REMOVE_AFTER` while also appearing in the address
list. -/
theorem claim_C7_pool_invariant (ops : List PoolOp) :
    poolInvariant (applyOps initialState ops) :=
  poolInvariant_of_cb _ (cb_applyOps initialState ops (by intro e he; simp [initialState] at he))

/-- Witness for C7: the invariant after a concrete operation sequence that
seeds two proxies and drives one of them over the removal threshold. -/
theorem claim_C7_witness :
    poolInvariant (applyOps initialState
      [PoolOp.ensureSeed (some ["p1:8080", "p2:8080"]), PoolOp.snapshot,
       PoolOp.recordFailure (some "p1:8080"), PoolOp.recordFailure (some "p1:8080"),
       PoolOp.stats]) :=
  claim_C7_pool_invariant
    [PoolOp.ensureSeed (some ["p1:8080", "p2:8080"]), PoolOp.snapshot,
     PoolOp.recordFailure (some "p1:8080"), PoolOp.recordFailure (some "p1:8080"),
     PoolOp.stats]

theorem mem_dropWhile_of_not (pf : Char → Bool) (c : Char) (h : pf c = false) :
    ∀ l : List Char, c ∈ l.dropWhile pf ↔ c ∈ l := by
  intro l
  induction l with
  | nil => simp
  | cons a as ih =>
    rw [List.dropWhile_cons]
    by_cases ha : pf a = true
    · rw [if_pos ha, ih]
      constructor
      · exact fun hm => List.mem_cons_of_mem _ hm
      · intro hm
        rcases List.mem_cons.mp hm with rfl | hm'
        · rw [h] at ha; cases ha
        · exact hm'
    · rw [if_neg ha]

theorem contains_iff_mem (l : List Char) (c : Char) : l.contains c = true ↔ c ∈ l :=
  List.elem_iff

theorem pyStrip_contains_colon (s : String) : containsColon (pyStrip s) = containsColon s := by
  have hws : Char.isWhitespace ':' = false := by decide
  have h1 := mem_dropWhile_of_not Char.isWhitespace ':' hws
  unfold containsColon pyStrip
  apply Bool.coe_iff_coe.mp
  rw [contains_iff_mem, contains_iff_mem]
  show (':' ∈ ((s.data.dropWhile Char.isWhitespace).reverse.dropWhile
      Char.isWhitespace).reverse) ↔ ':' ∈ s.data
  rw [List.mem_reverse, h1, List.mem_reverse, h1]

/-- C6: the loader returns the empty sequence on an unreadable source; on a
readable source it returns exactly the trimmed forms of those lines that are
non-empty after trimming and contain a colon separator; and on the concrete
source `["not-a-proxy", "", "1.2.3.4:8080"]` it loads exactly
`"1.2.3.4:8080"`. -/
theorem claim_C6_loader (lines : List String) (x : String) :
    _get_proxies none = []
      ∧ (x ∈ _get_proxies (some lines)
          ↔ ∃ ln ∈ lines, x = pyStrip ln ∧ x ≠ "" ∧ containsColon x = true)
      ∧ _get_proxies (some ["not-a-proxy", "", "1.2.3.4:8080"]) = ["1.2.3.4:8080"] := by
  refine ⟨rfl, ?_, by decide⟩
  unfold _get_proxies
  rw [List.mem_map]
  constructor
  · rintro ⟨ln, hln, rfl⟩
    rw [List.mem_filter] at hln
    obtain ⟨hmem, hcond⟩ := hln
    rw [Bool.and_eq_true, bne_iff_ne] at hcond
    exact ⟨ln, hmem, rfl, hcond.1, by rw [pyStrip_contains_colon]; exact hcond.2⟩
  · rintro ⟨ln, hmem, rfl, hne, hcol⟩
    refine ⟨ln, ?_, rfl⟩
    rw [List.mem_filter]
    refine ⟨hmem, ?_⟩
    rw [Bool.and_eq_true, bne_iff_ne]
    exact ⟨hne, by rw [← pyStrip_contains_colon]; exact hcol⟩

theorem dictLookup_eq_none_iff (d : List (String × Nat)) (q : String) :
    dictLookup d q = none ↔ q ∉ d.map Prod.fst := by
  induction d with
  | nil => simp [dictLookup]
  | cons hd tl ih =>
    obtain ⟨k', v'⟩ := hd
    by_cases h : k' = q
    · subst h; simp [dictLookup]
    · rw [dictLookup, if_neg h, ih, List.map_cons]
      simp only [List.mem_cons, not_or]
      constructor
      · exact fun hn => ⟨fun hq => h hq.symm, hn⟩
      · exact fun hn => hn.2

theorem dget_eq_of_lookup (d : List (String × Nat)) (k : String) (v : Nat)
    (h : dictLookup d k = some v) : dget d k = (v, d) := by
  unfold dget
  rw [h]

theorem dictWF_dget (d : List (String × Nat)) (k : String) (h : dictWF d) :
    dictWF (dget d k).2 := by
  unfold dget
  cases hl : dictLookup d k with
  | some v => exact h
  | none =>
    unfold dictWF
    rw [List.map_append, List.nodup_append]
    refine ⟨h, by simp, ?_⟩
    intro a ha hb
    simp at hb
    exact (dictLookup_eq_none_iff d k).mp hl (hb ▸ ha)

theorem keys_dset_mem (d : List (String × Nat)) (k : String) (v : Nat) (q : String)
    (h : q ∈ (dset d k v).map Prod.fst) : q ∈ d.map Prod.fst ∨ q = k := by
  rw [List.mem_map] at h
  obtain ⟨e, he, hq⟩ := h
  rcases mem_dset _ _ _ _ he with h' | h'
  · exact Or.inl (by rw [← hq]; exact List.mem_map_of_mem _ h')
  · right
    rw [← hq, h']

theorem dictWF_dset (d : List (String × Nat)) (k : String) (v : Nat) (h : dictWF d) :
    dictWF (dset d k v) := by
  induction d with
  | nil => simp [dset, dictWF]
  | cons hd tl ih =>
    obtain ⟨k', v'⟩ := hd
    unfold dictWF at h ⊢
    rw [List.map_cons, List.nodup_cons] at h
    obtain ⟨hk', htl⟩ := h
    by_cases hk : k' = k
    · subst hk
      simp only [dset, if_pos rfl, if_true]
      rw [List.map_cons, List.nodup_cons]
      exact ⟨hk', htl⟩
    · simp only [dset, if_neg hk]
      rw [List.map_cons, List.nodup_cons]
      refine ⟨?_, ih htl⟩
      intro hin
      rcases keys_dset_mem tl k v k' hin with h' | h'
      · exact hk' h'
      · exact hk h'

theorem dictLookup_dpop_dset_self (d : List (String × Nat)) (k : String) (v : Nat)
    (h : dictWF d) : dictLookup (dpop (dset d k v) k) k = none := by
  induction d with
  | nil => simp [dset, dpop, dictLookup]
  | cons hd tl ih =>
    obtain ⟨k', v'⟩ := hd
    unfold dictWF at h
    rw [List.map_cons, List.nodup_cons] at h
    obtain ⟨hk', htl⟩ := h
    by_cases hk : k' = k
    · subst hk
      simp only [dset, if_pos rfl, dpop, if_pos rfl]
      exact (dictLookup_eq_none_iff tl k').mpr hk'
    · simp only [dset, if_neg hk, dpop, if_neg hk, dictLookup]
      exact ih htl

theorem failure_eq_of_countD_zero (s : ProxyState) (p : String) (hp : p ≠ "")
    (hc : countD s.proxy_failure_counts p = 0) :
    _handle_proxy_failure s (some p)
      = { proxy_list := s.proxy_list
          proxy_failure_counts := dset (dget s.proxy_failure_counts p).2 p 1
          http_attempts := s.http_attempts
          success_events := s.success_events
          failure_events := s.failure_events + 1 } := by
  unfold _handle_proxy_failure
  dsimp only
  rw [if_neg hp, dget_fst, hc,
    if_neg (by decide : ¬(0 + 1 ≥ PROXY_REMOVE_AFTER))]

theorem failure_eq_of_lookup_one (s : ProxyState) (p : String) (hp : p ≠ "")
    (hc : dictLookup s.proxy_failure_counts p = some 1) :
    _handle_proxy_failure s (some p)
      = { proxy_list := s.proxy_list.erase p
          proxy_failure_counts := dpop (dset s.proxy_failure_counts p (1 + 1)) p
          http_attempts := s.http_attempts
          success_events := s.success_events
          failure_events := s.failure_events + 1 } := by
  unfold _handle_proxy_failure
  dsimp only
  rw [if_neg hp, dget_eq_of_lookup _ _ _ hc]
  dsimp only
  rw [if_pos (by decide : 1 + 1 ≥ PROXY_REMOVE_AFTER)]
  rfl

theorem success_list (s : ProxyState) (p : Option String) :
    (_handle_proxy_success s p).proxy_list = s.proxy_list := by
  unfold _handle_proxy_success
  cases p with
  | none => rfl
  | some q =>
    dsimp only
    by_cases h : q = "" <;> simp [h]

theorem failure_notmem_list (s : ProxyState) (q : Option String) (p : String)
    (h : p ∉ s.proxy_list) : p ∉ (_handle_proxy_failure s q).proxy_list := by
  unfold _handle_proxy_failure
  cases q with
  | none => exact h
  | some r =>
    dsimp only
    by_cases hr : r = ""
    · rw [if_pos hr]; exact h
    · rw [if_neg hr]
      split
      · intro hmem
        exact h (List.mem_of_mem_erase hmem)
      · exact h

theorem snapshot_fst_notmem (s : ProxyState) (p : String) (h : p ∉ s.proxy_list) :
    p ∉ (_snapshot_local s).1 := by
  rw [snapshot_fst_eq]
  split
  · exact h
  · intro hmem
    exact h (List.mem_filter.mp hmem).1

theorem notmem_applyOp (s : ProxyState) (op : PoolOp) (p : String)
    (hop : op.isSeed = false) (h : p ∉ s.proxy_list) : p ∉ (applyOp s op).proxy_list := by
  cases op with
  | recordSuccess q => rw [applyOp, success_list]; exact h
  | recordFailure q => exact failure_notmem_list s q p h
  | ensureSeed file => simp [PoolOp.isSeed] at hop
  | snapshot => rw [applyOp, snapshot_snd_proxy_list]; exact h
  | stats => rw [applyOp, stats_snd_proxy_list]; exact h

theorem notmem_applyOps (s : ProxyState) (ops : List PoolOp) (p : String)
    (hops : ∀ op ∈ ops, op.isSeed = false) (h : p ∉ s.proxy_list) :
    p ∉ (applyOps s ops).proxy_list := by
  induction ops generalizing s with
  | nil => exact h
  | cons op ops ih =>
    exact ih _ (fun o ho => hops o (List.mem_cons_of_mem _ ho))
      (notmem_applyOp s op p (hops op (List.mem_cons_self _ _)) h)

/-- Counterexample to C2 as stated: when an address occurs twice in the
address list (the loader deduplicates nothing, and the spec's data model
allows duplicates), the removal after the second consecutive failure uses
Python `list.remove`, which deletes only the first occurrence — the address
is still in the address list afterwards. -/
theorem claim_C2_counterexample :
    "p:1" ∈ (applyOps initialState
      [PoolOp.ensureSeed (some ["p:1", "p:1"]), PoolOp.recordFailure (some "p:1"),
       PoolOp.recordFailure (some "p:1")]).proxy_list := by decide

/-- C2 (amended): for every proxy address `p` (non-falsy) whose current
failure count is 0 and which occurs at most once in the address list,
exactly two consecutive recorded failures with no intervening success delete
`p` from both the address list and the failure-count map, and `p` stays
absent from the address list and from every usable snapshot across all
subsequent pool operations other than re-seeding. -/
theorem claim_C2_two_failures_remove (s s2 : ProxyState) (p : String)
    (hp : p ≠ "") (hwf : dictWF s.proxy_failure_counts)
    (hc : countD s.proxy_failure_counts p = 0)
    (hdup : s.proxy_list.count p ≤ 1)
    (hs2 : s2 = _handle_proxy_failure (_handle_proxy_failure s (some p)) (some p)) :
    p ∉ s2.proxy_list
      ∧ dictLookup s2.proxy_failure_counts p = none
      ∧ ∀ ops : List PoolOp, (∀ op ∈ ops, op.isSeed = false) →
          p ∉ (applyOps s2 ops).proxy_list
            ∧ p ∉ (_snapshot_local (applyOps s2 ops)).1 := by
  have h1 := failure_eq_of_countD_zero s p hp hc
  have hs1c : (_handle_proxy_failure s (some p)).proxy_failure_counts
      = dset (dget s.proxy_failure_counts p).2 p 1 := by rw [h1]
  have hs1l : (_handle_proxy_failure s (some p)).proxy_list = s.proxy_list := by rw [h1]
  have hl1 : dictLookup (_handle_proxy_failure s (some p)).proxy_failure_counts p
      = some 1 := by rw [hs1c, dictLookup_dset_self]
  have hwf1 : dictWF (_handle_proxy_failure s (some p)).proxy_failure_counts := by
    rw [hs1c]
    exact dictWF_dset _ _ _ (dictWF_dget _ _ hwf)
  have h2 := failure_eq_of_lookup_one (_handle_proxy_failure s (some p)) p hp hl1
  have hs2l : s2.proxy_list = s.proxy_list.erase p := by
    rw [hs2, h2, hs1l]
  have hs2c : s2.proxy_failure_counts
      = dpop (dset (_handle_proxy_failure s (some p)).proxy_failure_counts p (1 + 1)) p := by
    rw [hs2, h2]
  have hnotmem : p ∉ s2.proxy_list := by
    rw [hs2l]
    intro hmem
    have hcnt : (s.proxy_list.erase p).count p = s.proxy_list.count p - 1 :=
      List.count_erase_self p s.proxy_list
    have : 0 < (s.proxy_list.erase p).count p := List.count_pos_iff.mpr hmem
    omega
  refine ⟨hnotmem, ?_, ?_⟩
  · rw [hs2c]
    exact dictLookup_dpop_dset_self _ _ _ hwf1
  · intro ops hops
    have habs := notmem_applyOps s2 ops p hops hnotmem
    exact ⟨habs, snapshot_fst_notmem _ _ habs⟩

/-- Witness for C2 (amended): a singleton pool, two consecutive failures, the
proxy is gone from both structures. -/
theorem claim_C2_witness :
    "q:1" ∉ (_handle_proxy_failure (_handle_proxy_failure
        ⟨["q:1"], [], 0, 0, 0⟩ (some "q:1")) (some "q:1")).proxy_list
      ∧ dictLookup (_handle_proxy_failure (_handle_proxy_failure
        ⟨["q:1"], [], 0, 0, 0⟩ (some "q:1")) (some "q:1")).proxy_failure_counts "q:1"
        = none := by
  have h := claim_C2_two_failures_remove ⟨["q:1"], [], 0, 0, 0⟩
    (_handle_proxy_failure (_handle_proxy_failure ⟨["q:1"], [], 0, 0, 0⟩ (some "q:1"))
      (some "q:1"))
    "q:1" (by decide) (by simp [dictWF]) (by decide) (by decide) rfl
  exact ⟨h.1, h.2.1⟩

/-- Counterexample to C8 as stated: on a reachable state (freshly seeded pool,
no failures recorded yet) the stats query does change the failure-count map —
reading each listed address's count through the `defaultdict` inserts an
explicit 0 entry for it. -/
theorem claim_C8_counterexample :
    (get_proxy_stats (applyOps initialState
        [PoolOp.ensureSeed (some ["1.2.3.4:8080"])])).2.proxy_failure_counts
      ≠ (applyOps initialState
        [PoolOp.ensureSeed (some ["1.2.3.4:8080"])]).proxy_failure_counts := by decide

/-- C8 (amended): the stats query leaves the address list, the ghost event
counters and the effective failure count of every address (defaultdict view,
default 0) unchanged; the only possible change to the failure-count map is
the materialisation of explicit 0 entries for addresses of the list that had
no entry yet.  It returns the total proxy count, the number of listed proxies
with failure count below `PROXY_REMOVE_AFTER`, and the full (materialised)
failure-count map. -/
theorem claim_C8_stats_read_only (s : ProxyState) :
    (get_proxy_stats s).2.proxy_list = s.proxy_list
      ∧ (get_proxy_stats s).2.http_attempts = s.http_attempts
      ∧ (get_proxy_stats s).2.success_events = s.success_events
      ∧ (get_proxy_stats s).2.failure_events = s.failure_events
      ∧ (∀ q, countD (get_proxy_stats s).2.proxy_failure_counts q
          = countD s.proxy_failure_counts q)
      ∧ (∀ q c, dictLookup (get_proxy_stats s).2.proxy_failure_counts q = some c →
          dictLookup s.proxy_failure_counts q = some c ∨ (c = 0 ∧ q ∈ s.proxy_list))
      ∧ (get_proxy_stats s).1.total_proxies = s.proxy_list.length
      ∧ (get_proxy_stats s).1.healthy_proxies
          = (s.proxy_list.filter
              (fun p => countD s.proxy_failure_counts p < PROXY_REMOVE_AFTER)).length
      ∧ (get_proxy_stats s).1.failure_counts = (get_proxy_stats s).2.proxy_failure_counts := by
  refine ⟨stats_snd_proxy_list s, stats_snd_http s, stats_snd_success s, stats_snd_failure s,
    stats_snd_countD s, ?_, stats_fst_total s, stats_fst_healthy s, stats_fst_failure_counts s⟩
  intro q c h
  exact dictLookup_statsGo_snd _ _ _ _ h

/-- Witness for C8 (amended): concrete instantiation on a one-proxy pool with
one recorded failure. -/
theorem claim_C8_witness :
    (get_proxy_stats ⟨["a:1"], [("a:1", 1)], 0, 0, 0⟩).2.proxy_list = ["a:1"]
      ∧ countD (get_proxy_stats ⟨["a:1"], [("a:1", 1)], 0, 0, 0⟩).2.proxy_failure_counts "a:1"
        = countD [("a:1", 1)] "a:1" :=
  ⟨(claim_C8_stats_read_only ⟨["a:1"], [("a:1", 1)], 0, 0, 0⟩).1,
   (claim_C8_stats_read_only ⟨["a:1"], [("a:1", 1)], 0, 0, 0⟩).2.2.2.2.1 "a:1"⟩

theorem perm_pair (l : List String) (a b : String) (hab : a ≠ b) (h : l.Perm [a, b]) :
    l = [a, b] ∨ l = [b, a] := by
  have hlen : l.length = 2 := by simpa using h.length_eq
  cases l with
  | nil => simp at hlen
  | cons x t =>
    cases t with
    | nil => simp at hlen
    | cons y t2 =>
      cases t2 with
      | cons z t3 => simp at hlen
      | nil =>
        have hx : x ∈ [a, b] := h.mem_iff.mp (by simp)
        have hy : y ∈ [a, b] := h.mem_iff.mp (by simp)
        simp only [List.mem_cons, List.not_mem_nil, or_false] at hx hy
        rcases hx with hxa | hxb
        · rcases hy with hya | hyb
          · exfalso
            have hbmem : b ∈ [x, y] := h.mem_iff.mpr (by simp)
            simp only [List.mem_cons, List.not_mem_nil, or_false] at hbmem
            rcases hbmem with hb1 | hb2
            · exact hab (hb1.trans hxa).symm
            · exact hab (hb2.trans hya).symm
          · left
            rw [hxa, hyb]
        · rcases hy with hya | hyb
          · right
            rw [hxb, hya]
          · exfalso
            have hamem : a ∈ [x, y] := h.mem_iff.mpr (by simp)
            simp only [List.mem_cons, List.not_mem_nil, or_false] at hamem
            rcases hamem with ha1 | ha2
            · exact hab (ha1.trans hxb)
            · exact hab (ha2.trans hyb)

/-- C5: for the initial pool `["p1:8080", "p2:8080"]` with no recorded
failures, when every HTTP attempt fails with a connection error and
`max_attempts = 3`, then for every shuffle order the fetch raises the
attempts-exhausted error after exactly 3 HTTP attempts, exactly 3 proxy
failures are recorded in total (and no success), the pool afterwards
contains exactly 1 address (one proxy crosses `PROXY_REMOVE_AFTER = 2` on
the third attempt and is removed), and — whichever order the initial
shuffle chose — both proxies show failure count 1 after the first two
attempts, before either crosses the threshold. -/
theorem claim_C5_concrete_scenario (file : Option (List String))
    (shuffle : Nat → List String → List String) (res : FetchResult × ProxyState)
    (h0 : (shuffle 0 ["p1:8080", "p2:8080"]).Perm ["p1:8080", "p2:8080"])
    (h2 : (shuffle 2 ["p1:8080", "p2:8080"]).Perm ["p1:8080", "p2:8080"])
    (hres : res = requests_get (fun _ _ => AttemptOutcome.transportError) file shuffle 3 ⟨["p1:8080", "p2:8080"], [], 0, 0, 0⟩) :
    (∃ st, res.1 = FetchResult.exhausted 3 st)
      ∧ res.2.http_attempts = 3
      ∧ res.2.failure_events = 3
      ∧ res.2.success_events = 0
      ∧ res.2.proxy_list.length = 1
      ∧ (∀ l : List String, l.Perm ["p1:8080", "p2:8080"] →
          countD (_handle_proxy_failure (_handle_proxy_failure ⟨["p1:8080", "p2:8080"], [("p1:8080", 0), ("p2:8080", 0)], 0, 0, 0⟩
              (some (l.getD 0 ""))) (some (l.getD 1 ""))).proxy_failure_counts "p1:8080" = 1
            ∧ countD (_handle_proxy_failure (_handle_proxy_failure ⟨["p1:8080", "p2:8080"], [("p1:8080", 0), ("p2:8080", 0)], 0, 0, 0⟩
              (some (l.getD 0 ""))) (some (l.getD 1 ""))).proxy_failure_counts "p2:8080" = 1) := by
  have hmid : ∀ l : List String, l.Perm ["p1:8080", "p2:8080"] →
      countD (_handle_proxy_failure (_handle_proxy_failure ⟨["p1:8080", "p2:8080"], [("p1:8080", 0), ("p2:8080", 0)], 0, 0, 0⟩
          (some (l.getD 0 ""))) (some (l.getD 1 ""))).proxy_failure_counts "p1:8080" = 1
        ∧ countD (_handle_proxy_failure (_handle_proxy_failure ⟨["p1:8080", "p2:8080"], [("p1:8080", 0), ("p2:8080", 0)], 0, 0, 0⟩
          (some (l.getD 0 ""))) (some (l.getD 1 ""))).proxy_failure_counts "p2:8080" = 1 := by
    intro l hl
    rcases perm_pair l "p1:8080" "p2:8080" (by decide) hl with h | h
    · subst h
      exact ⟨by decide, by decide⟩
    · subst h
      exact ⟨by decide, by decide⟩
  have e0 : requests_get (fun _ _ => AttemptOutcome.transportError) file shuffle 3 ⟨["p1:8080", "p2:8080"], [], 0, 0, 0⟩
      = requests_get_go (fun _ _ => AttemptOutcome.transportError) file shuffle 3 3 0 0
          (shuffle 0 ["p1:8080", "p2:8080"]) ⟨["p1:8080", "p2:8080"], [("p1:8080", 0), ("p2:8080", 0)], 0, 0, 0⟩ := rfl
  have hsnap : _snapshot_local (_ensure_global_proxies file ⟨["p1:8080", "p2:8080"], [("p1:8080", 1), ("p2:8080", 1)], 2, 0, 2⟩)
      = (["p1:8080", "p2:8080"], ⟨["p1:8080", "p2:8080"], [("p1:8080", 1), ("p2:8080", 1)], 2, 0, 2⟩) := rfl
  have hne : (_snapshot_local (_ensure_global_proxies file ⟨["p1:8080", "p2:8080"], [("p1:8080", 1), ("p2:8080", 1)], 2, 0, 2⟩)).1 ≠ [] := by
    rw [hsnap]
    decide
  rcases perm_pair _ "p1:8080" "p2:8080" (by decide) h0 with ha | ha <;>
    rcases perm_pair _ "p1:8080" "p2:8080" (by decide) h2 with hb | hb
  · -- initial order p1 p2, reshuffle order p1 p2: p1 removed, p2 survives
    have e1 : requests_get_go (fun _ _ => AttemptOutcome.transportError) file shuffle 3 3 0 0
        ["p1:8080", "p2:8080"] ⟨["p1:8080", "p2:8080"], [("p1:8080", 0), ("p2:8080", 0)], 0, 0, 0⟩
        = requests_get_go (fun _ _ => AttemptOutcome.transportError) file shuffle 3 (0 + 1) 2 2
            ["p1:8080", "p2:8080"] ⟨["p1:8080", "p2:8080"], [("p1:8080", 1), ("p2:8080", 1)], 2, 0, 2⟩ := rfl
    have key : requests_get (fun _ _ => AttemptOutcome.transportError) file shuffle 3 ⟨["p1:8080", "p2:8080"], [], 0, 0, 0⟩
        = (FetchResult.exhausted 3 ⟨1, 1, [("p2:8080", 1)]⟩,
           ⟨["p2:8080"], [("p2:8080", 1)], 3, 0, 3⟩) := by
      rw [e0, ha, e1,
        requests_get_go_succ_resnap (fun _ _ => AttemptOutcome.transportError) file shuffle 3 0 2 2
          ["p1:8080", "p2:8080"] ⟨["p1:8080", "p2:8080"], [("p1:8080", 1), ("p2:8080", 1)], 2, 0, 2⟩ (by decide) hne,
        hsnap]
      dsimp only
      rw [hb]
      rfl
    subst hres
    exact ⟨⟨⟨1, 1, [("p2:8080", 1)]⟩, by rw [key]⟩, by rw [key], by rw [key], by rw [key],
      by rw [key]; rfl, hmid⟩
  · -- initial order p1 p2, reshuffle order p2 p1: p2 removed, p1 survives
    have e1 : requests_get_go (fun _ _ => AttemptOutcome.transportError) file shuffle 3 3 0 0
        ["p1:8080", "p2:8080"] ⟨["p1:8080", "p2:8080"], [("p1:8080", 0), ("p2:8080", 0)], 0, 0, 0⟩
        = requests_get_go (fun _ _ => AttemptOutcome.transportError) file shuffle 3 (0 + 1) 2 2
            ["p1:8080", "p2:8080"] ⟨["p1:8080", "p2:8080"], [("p1:8080", 1), ("p2:8080", 1)], 2, 0, 2⟩ := rfl
    have key : requests_get (fun _ _ => AttemptOutcome.transportError) file shuffle 3 ⟨["p1:8080", "p2:8080"], [], 0, 0, 0⟩
        = (FetchResult.exhausted 3 ⟨1, 1, [("p1:8080", 1)]⟩,
           ⟨["p1:8080"], [("p1:8080", 1)], 3, 0, 3⟩) := by
      rw [e0, ha, e1,
        requests_get_go_succ_resnap (fun _ _ => AttemptOutcome.transportError) file shuffle 3 0 2 2
          ["p1:8080", "p2:8080"] ⟨["p1:8080", "p2:8080"], [("p1:8080", 1), ("p2:8080", 1)], 2, 0, 2⟩ (by decide) hne,
        hsnap]
      dsimp only
      rw [hb]
      rfl
    subst hres
    exact ⟨⟨⟨1, 1, [("p1:8080", 1)]⟩, by rw [key]⟩, by rw [key], by rw [key], by rw [key],
      by rw [key]; rfl, hmid⟩
  · -- initial order p2 p1, reshuffle order p1 p2
    have e1 : requests_get_go (fun _ _ => AttemptOutcome.transportError) file shuffle 3 3 0 0
        ["p2:8080", "p1:8080"] ⟨["p1:8080", "p2:8080"], [("p1:8080", 0), ("p2:8080", 0)], 0, 0, 0⟩
        = requests_get_go (fun _ _ => AttemptOutcome.transportError) file shuffle 3 (0 + 1) 2 2
            ["p2:8080", "p1:8080"] ⟨["p1:8080", "p2:8080"], [("p1:8080", 1), ("p2:8080", 1)], 2, 0, 2⟩ := rfl
    have key : requests_get (fun _ _ => AttemptOutcome.transportError) file shuffle 3 ⟨["p1:8080", "p2:8080"], [], 0, 0, 0⟩
        = (FetchResult.exhausted 3 ⟨1, 1, [("p2:8080", 1)]⟩,
           ⟨["p2:8080"], [("p2:8080", 1)], 3, 0, 3⟩) := by
      rw [e0, ha, e1,
        requests_get_go_succ_resnap (fun _ _ => AttemptOutcome.transportError) file shuffle 3 0 2 2
          ["p2:8080", "p1:8080"] ⟨["p1:8080", "p2:8080"], [("p1:8080", 1), ("p2:8080", 1)], 2, 0, 2⟩ (by decide) hne,
        hsnap]
      dsimp only
      rw [hb]
      rfl
    subst hres
    exact ⟨⟨⟨1, 1, [("p2:8080", 1)]⟩, by rw [key]⟩, by rw [key], by rw [key], by rw [key],
      by rw [key]; rfl, hmid⟩
  · -- initial order p2 p1, reshuffle order p2 p1
    have e1 : requests_get_go (fun _ _ => AttemptOutcome.transportError) file shuffle 3 3 0 0
        ["p2:8080", "p1:8080"] ⟨["p1:8080", "p2:8080"], [("p1:8080", 0), ("p2:8080", 0)], 0, 0, 0⟩
        = requests_get_go (fun _ _ => AttemptOutcome.transportError) file shuffle 3 (0 + 1) 2 2
            ["p2:8080", "p1:8080"] ⟨["p1:8080", "p2:8080"], [("p1:8080", 1), ("p2:8080", 1)], 2, 0, 2⟩ := rfl
    have key : requests_get (fun _ _ => AttemptOutcome.transportError) file shuffle 3 ⟨["p1:8080", "p2:8080"], [], 0, 0, 0⟩
        = (FetchResult.exhausted 3 ⟨1, 1, [("p1:8080", 1)]⟩,
           ⟨["p1:8080"], [("p1:8080", 1)], 3, 0, 3⟩) := by
      rw [e0, ha, e1,
        requests_get_go_succ_resnap (fun _ _ => AttemptOutcome.transportError) file shuffle 3 0 2 2
          ["p2:8080", "p1:8080"] ⟨["p1:8080", "p2:8080"], [("p1:8080", 1), ("p2:8080", 1)], 2, 0, 2⟩ (by decide) hne,
        hsnap]
      dsimp only
      rw [hb]
      rfl
    subst hres
    exact ⟨⟨⟨1, 1, [("p1:8080", 1)]⟩, by rw [key]⟩, by rw [key], by rw [key], by rw [key],
      by rw [key]; rfl, hmid⟩

/-- Witness for C5: the identity shuffle run, showing 3 attempts and a
one-address pool afterwards. -/
theorem claim_C5_witness :
    (requests_get (fun _ _ => AttemptOutcome.transportError) none (fun _ l => l) 3
        ⟨["p1:8080", "p2:8080"], [], 0, 0, 0⟩).2.http_attempts = 3
      ∧ (requests_get (fun _ _ => AttemptOutcome.transportError) none (fun _ l => l) 3
        ⟨["p1:8080", "p2:8080"], [], 0, 0, 0⟩).2.proxy_list.length = 1 := by
  have h := claim_C5_concrete_scenario none (fun _ l => l)
      (requests_get (fun _ _ => AttemptOutcome.transportError) none (fun _ l => l) 3
        ⟨["p1:8080", "p2:8080"], [], 0, 0, 0⟩)
      (List.Perm.refl _) (List.Perm.refl _) rfl
  exact ⟨h.2.1, h.2.2.2.2.1⟩
